import Mathlib

/-!
Verification of the Blackbook Content Generator
(`src/Blackbook_Content_Generator/app.py`).

The development shallowly embeds the content-generation core of the app:
the recognized section list, the prompt construction, the external-service
call with its length-50 quality gate and fallback, the static template
store, the document assembly performed by the two Streamlit branches
(single section and "generate all"), and the download file names.

The external Cohere call is modelled by an oracle of type
`String → String → Except String String` (api key and prompt in, either
the text of the first returned candidate or a raised exception out), so
theorems quantify over every possible service behaviour.  Python
`str.strip()` is modelled by `strip`, Python `len` on the stripped text by
`String.length` (both count characters).  UI side effects (`st.error`,
`logging`) do not influence the returned values and are not modelled.
-/

/-- List of recognized sections (`valid_sections` in `app.py`, line 22). -/
def valid_sections : List String :=
  ["Introduction", "Problem Statement", "Objective", "Methodology", "Literature Review", "Future Scope"]

/-- Model of Python `str.strip()`: drop leading and trailing whitespace characters. -/
def strip (s : String) : String :=
  String.mk (((s.data.dropWhile Char.isWhitespace).reverse.dropWhile Char.isWhitespace).reverse)

/-- The prompt f-string built inside `generate_content` (`app.py`, lines 30-38). -/
def prompt (sec domain title : String) : String :=
  "Write a comprehensive " ++ sec ++ " for a final year " ++ domain ++
    " project titled \x27" ++ title ++ "\x27 in a formal academic tone. \n\n" ++
    "The content should be:\n- Professional and detailed\n- Well-structured with clear paragraphs\n" ++
    "- Academically appropriate for a final year project\n- Approximately 200-300 words\n" ++
    "- Include specific technical details relevant to " ++ domain ++
    "\n\nPlease provide only the content for the " ++ sec ++
    " section, without any additional commentary."

/-- Abstraction of the external Cohere call made inside the `try` block of
`generate_content` (`app.py`, lines 40-52): given the api key and the prompt,
either the text of the first returned generation (`Except.ok`) or any raised
exception (`Except.error`) - network error, auth failure, empty generation
list, quota exhaustion all land in `Except.error`.  The fixed call parameters
(model `command-r-plus`, `max_tokens` 500, `temperature` 0.7, `k` 0, empty
stop sequences, no likelihoods) do not influence the control flow modelled
here and are absorbed into the oracle. -/
def ExternalService : Type := String → String → Except String String

/-- The `"Introduction"` entry of the `templates` dict in
`generate_fallback_content` (`app.py`, lines 65-69). -/
def introduction_template (domain title : String) : String :=
  "The " ++ title ++ " project represents a significant advancement in the field of " ++ domain ++
    ". This project aims to address current challenges and provide innovative solutions that can benefit both academic research and practical applications.\n\nIn today\x27s rapidly evolving technological landscape, " ++
    domain ++
    " continues to play a crucial role in solving complex problems. This project focuses on developing comprehensive solutions that leverage modern technologies and methodologies.\n\nThe scope of this project encompasses various aspects of " ++
    domain ++
    ", including theoretical foundations, practical implementations, and real-world applications. Through systematic research and development, this project seeks to contribute meaningful insights to the field."

/-- The `"Problem Statement"` entry of the `templates` dict (`app.py`, lines 71-80). -/
def problem_statement_template (domain title : String) : String :=
  "The current state of " ++ domain ++
    " faces several challenges that require immediate attention and innovative solutions. Traditional approaches to " ++
    title ++
    " have limitations that hinder optimal performance and scalability.\n\nKey issues identified include:\n1. Limited efficiency in existing systems\n2. Lack of comprehensive solutions\n3. Need for improved user experience\n4. Scalability concerns in current implementations\n\nThis project addresses these challenges by proposing a novel approach that combines theoretical knowledge with practical implementation strategies."

/-- The `"Objective"` entry of the `templates` dict (`app.py`, lines 82-91). -/
def objective_template (domain title : String) : String :=
  "The primary objective of this " ++ title ++
    " project is to develop a comprehensive solution in the " ++ domain ++
    " domain that addresses current limitations and provides enhanced functionality.\n\nSpecific objectives include:\n1. To analyze existing systems and identify improvement opportunities\n2. To design and implement an efficient " ++
    domain ++
    " solution\n3. To evaluate performance and validate the proposed approach\n4. To provide documentation and guidelines for future development\n\nThese objectives will be achieved through systematic research, careful planning, and rigorous testing procedures."

/-- The `"Methodology"` entry of the `templates` dict (`app.py`, lines 93-108). -/
def methodology_template (domain title : String) : String :=
  "The methodology for this " ++ title ++
    " project follows a systematic approach that ensures comprehensive coverage of all project aspects.\n\nPhase 1: Research and Analysis\n- Literature review of existing " ++
    domain ++
    " solutions\n- Identification of current challenges and limitations\n- Analysis of user requirements and expectations\n\nPhase 2: Design and Development\n- System architecture design\n- Implementation of core functionalities\n- Integration of " ++
    domain ++
    " technologies\n\nPhase 3: Testing and Validation\n- Performance testing and optimization\n- User acceptance testing\n- Documentation and deployment"

/-- The `"Literature Review"` entry of the `templates` dict (`app.py`, lines 110-121). -/
def literature_review_template (domain title : String) : String :=
  "The literature review for this " ++ title ++
    " project examines current research and developments in the " ++ domain ++
    " field. Various studies have been conducted to understand the theoretical foundations and practical applications.\n\nRecent research in " ++
    domain ++
    " has focused on improving efficiency, scalability, and user experience. Several authors have proposed different approaches to address current challenges.\n\nKey findings from the literature include:\n1. The importance of comprehensive system design\n2. The need for efficient implementation strategies\n3. The significance of user-centered approaches\n4. The value of continuous improvement and optimization\n\nThis project builds upon existing knowledge while introducing novel concepts and methodologies."

/-- The `"Future Scope"` entry of the `templates` dict (`app.py`, lines 123-136). -/
def future_scope_template (domain title : String) : String :=
  "The " ++ title ++ " project provides a foundation for future developments in the " ++ domain ++
    " field. Several opportunities exist for extending and improving the current solution.\n\nPotential future enhancements include:\n1. Integration with emerging technologies\n2. Expansion of functionality and features\n3. Performance optimization and scalability improvements\n4. Development of mobile and web-based interfaces\n\nThe project also opens possibilities for research in related areas such as:\n- Advanced algorithms and techniques\n- Cross-platform compatibility\n- Enhanced user experience design\n- Integration with other " ++
    domain ++
    " systems\n\nThese future developments will contribute to the continuous evolution of " ++ domain ++
    " solutions."

/-- Embedding of `generate_fallback_content(section, domain, title)` (`app.py`,
lines 63-137): a lookup in the `templates` dict keyed by the section name,
with `templates.get`'s default string for unknown sections. -/
def generate_fallback_content (sec domain title : String) : String :=
  match sec with
  | "Introduction" => introduction_template domain title
  | "Problem Statement" => problem_statement_template domain title
  | "Objective" => objective_template domain title
  | "Methodology" => methodology_template domain title
  | "Literature Review" => literature_review_template domain title
  | "Future Scope" => future_scope_template domain title
  | _ => "Content for " ++ sec ++ " section of " ++ title ++ " project in " ++ domain ++ " domain."

/-- Embedding of `generate_content(section, domain, title, api_key)` (`app.py`,
lines 25-60).  An unrecognized section short-circuits to the literal error
string before any service interaction; otherwise the external call is made,
a raised exception or a stripped first candidate shorter than 50 characters
yields the fallback, and a stripped candidate of length at least 50 is
returned unchanged. -/
def generate_content (sec domain title api_key : String) (svc : ExternalService) : String :=
  if sec ∉ valid_sections then
    "Invalid section: " ++ sec
  else
    match svc api_key (prompt sec domain title) with
    | Except.error _ => generate_fallback_content sec domain title
    | Except.ok raw =>
      let content := strip raw
      if content.length < 50 then
        generate_fallback_content sec domain title
      else
        content

/-- Items of a python-docx `Document` as assembled by `app.py`: headings
(`doc.add_heading(text, level)`) and paragraphs (`doc.add_paragraph(text)`). -/
inductive DocItem where
  | heading (level : Nat) (text : String)
  | para (text : String)
deriving DecidableEq, Repr

/-- The headings of a document, in order, as (level, text) pairs. -/
def docHeadings : List DocItem → List (Nat × String)
  | [] => []
  | DocItem.heading l t :: rest => (l, t) :: docHeadings rest
  | DocItem.para _ :: rest => docHeadings rest

/-- The paragraph bodies of a document, in order. -/
def docParas : List DocItem → List String
  | [] => []
  | DocItem.heading _ _ :: rest => docParas rest
  | DocItem.para t :: rest => t :: docParas rest

/-- Document built by the `generate_all` branch (`app.py`, lines 211-218):
a level-0 heading with the project title, then, for each section of
`valid_sections` in order, a level-1 heading with the section name followed
by a paragraph holding that section's generated (or fallback) content. -/
def generate_all_doc (domain title api_key : String) (svc : ExternalService) : List DocItem :=
  DocItem.heading 0 title ::
    valid_sections.flatMap (fun s =>
      [DocItem.heading 1 s, DocItem.para (generate_content s domain title api_key svc)])

/-- Document built by the single-section branch (`app.py`, lines 238-240):
one level-0 heading `f"{project_title} - {section}"` followed by one
paragraph holding the generated (or fallback) content.  No level-1 heading
is added in this branch. -/
def single_section_doc (sec domain title api_key : String) (svc : ExternalService) : List DocItem :=
  [DocItem.heading 0 (title ++ " - " ++ sec),
   DocItem.para (generate_content sec domain title api_key svc)]

/-- Model of `project_title.replace(' ', '_')` as used in both download
file names: every space character of the title is replaced by an
underscore (single-character `str.replace` touches each occurrence). -/
def replace_spaces (title : String) : String :=
  String.mk (title.data.map fun c => if c = ' ' then '_' else c)

/-- Download file name of the `generate_all` branch
(`f"{project_title.replace(' ', '_')}_Blackbook.docx"`, `app.py` line 228). -/
def blackbook_file_name (title : String) : String :=
  replace_spaces title ++ "_Blackbook.docx"

/-- Download file name of the single-section branch
(`f"{project_title.replace(' ', '_')}_{section}.docx"`, `app.py` line 249). -/
def section_file_name (title sec : String) : String :=
  replace_spaces title ++ "_" ++ sec ++ ".docx"

/-- Substring relation used to state the template-substitution claims:
`sub` occurs verbatim somewhere inside `s`. -/
def ContainsStr (s sub : String) : Prop := ∃ a b : String, s = a ++ sub ++ b

/-- A concrete 60-character service response with no surrounding whitespace,
used to exercise the long-response branch of `generate_content`. -/
def ok_response : String := "AAAAAAAAAAAAAAAAAAAAAAAAAAAAAAAAAAAAAAAAAAAAAAAAAAAAAAAAAAAA"

theorem containsStr_self (s : String) : ContainsStr s s :=
  ⟨"", "", by rw [String.empty_append, String.append_empty]⟩

theorem containsStr_append_left {s sub : String} (t : String) (h : ContainsStr s sub) :
    ContainsStr (s ++ t) sub := by
  obtain ⟨a, b, rfl⟩ := h
  exact ⟨a, b ++ t, by simp [String.append_assoc]⟩

theorem containsStr_append_right {t sub : String} (s : String) (h : ContainsStr t sub) :
    ContainsStr (s ++ t) sub := by
  obtain ⟨a, b, rfl⟩ := h
  exact ⟨s ++ a, b, by simp [String.append_assoc]⟩

theorem length_le_of_contains {s sub : String} (h : ContainsStr s sub) : sub.length ≤ s.length := by
  obtain ⟨a, b, rfl⟩ := h
  rw [String.length_append, String.length_append]
  omega

theorem ne_empty_of_len_pos {s : String} (h : 0 < s.length) : s ≠ "" := by
  intro he
  rw [he] at h
  exact absurd h (by decide)

theorem fallback_introduction (domain title : String) :
    generate_fallback_content "Introduction" domain title = introduction_template domain title := rfl

theorem fallback_problem_statement (domain title : String) :
    generate_fallback_content "Problem Statement" domain title = problem_statement_template domain title := rfl

theorem fallback_objective (domain title : String) :
    generate_fallback_content "Objective" domain title = objective_template domain title := rfl

theorem fallback_methodology (domain title : String) :
    generate_fallback_content "Methodology" domain title = methodology_template domain title := rfl

theorem fallback_literature_review (domain title : String) :
    generate_fallback_content "Literature Review" domain title = literature_review_template domain title := rfl

theorem fallback_future_scope (domain title : String) :
    generate_fallback_content "Future Scope" domain title = future_scope_template domain title := rfl

theorem fallback_unknown (sec domain title : String) (hs : sec ∉ valid_sections) :
    generate_fallback_content sec domain title =
      "Content for " ++ sec ++ " section of " ++ title ++ " project in " ++ domain ++ " domain." := by
  unfold generate_fallback_content
  split
  · simp_all [valid_sections]
  · simp_all [valid_sections]
  · simp_all [valid_sections]
  · simp_all [valid_sections]
  · simp_all [valid_sections]
  · simp_all [valid_sections]
  · rfl

set_option maxRecDepth 8192 in
theorem fallback_len_ge (sec domain title : String) (hs : sec ∈ valid_sections) :
    50 ≤ (generate_fallback_content sec domain title).length := by
  simp only [valid_sections, List.mem_cons, List.not_mem_nil, or_false] at hs
  rcases hs with rfl | rfl | rfl | rfl | rfl | rfl
  · rw [fallback_introduction]
    have hc : ContainsStr (introduction_template domain title)
        ", including theoretical foundations, practical implementations, and real-world applications. Through systematic research and development, this project seeks to contribute meaningful insights to the field." := by
      unfold introduction_template
      repeat first
      | exact containsStr_append_right _ (containsStr_self _)
      | apply containsStr_append_left
    exact le_trans (by decide) (length_le_of_contains hc)
  · rw [fallback_problem_statement]
    have hc : ContainsStr (problem_statement_template domain title)
        " have limitations that hinder optimal performance and scalability.\n\nKey issues identified include:\n1. Limited efficiency in existing systems\n2. Lack of comprehensive solutions\n3. Need for improved user experience\n4. Scalability concerns in current implementations\n\nThis project addresses these challenges by proposing a novel approach that combines theoretical knowledge with practical implementation strategies." := by
      unfold problem_statement_template
      repeat first
      | exact containsStr_append_right _ (containsStr_self _)
      | apply containsStr_append_left
    exact le_trans (by decide) (length_le_of_contains hc)
  · rw [fallback_objective]
    have hc : ContainsStr (objective_template domain title)
        " solution\n3. To evaluate performance and validate the proposed approach\n4. To provide documentation and guidelines for future development\n\nThese objectives will be achieved through systematic research, careful planning, and rigorous testing procedures." := by
      unfold objective_template
      repeat first
      | exact containsStr_append_right _ (containsStr_self _)
      | apply containsStr_append_left
    exact le_trans (by decide) (length_le_of_contains hc)
  · rw [fallback_methodology]
    have hc : ContainsStr (methodology_template domain title)
        " technologies\n\nPhase 3: Testing and Validation\n- Performance testing and optimization\n- User acceptance testing\n- Documentation and deployment" := by
      unfold methodology_template
      repeat first
      | exact containsStr_append_right _ (containsStr_self _)
      | apply containsStr_append_left
    exact le_trans (by decide) (length_le_of_contains hc)
  · rw [fallback_literature_review]
    have hc : ContainsStr (literature_review_template domain title)
        " has focused on improving efficiency, scalability, and user experience. Several authors have proposed different approaches to address current challenges.\n\nKey findings from the literature include:\n1. The importance of comprehensive system design\n2. The need for efficient implementation strategies\n3. The significance of user-centered approaches\n4. The value of continuous improvement and optimization\n\nThis project builds upon existing knowledge while introducing novel concepts and methodologies." := by
      unfold literature_review_template
      repeat first
      | exact containsStr_append_right _ (containsStr_self _)
      | apply containsStr_append_left
    exact le_trans (by decide) (length_le_of_contains hc)
  · rw [fallback_future_scope]
    have hc : ContainsStr (future_scope_template domain title)
        " systems\n\nThese future developments will contribute to the continuous evolution of " := by
      unfold future_scope_template
      repeat first
      | exact containsStr_append_right _ (containsStr_self _)
      | apply containsStr_append_left
    exact le_trans (by decide) (length_le_of_contains hc)

theorem fallback_contains_domain (sec domain title : String) (hs : sec ∈ valid_sections) :
    ContainsStr (generate_fallback_content sec domain title) domain := by
  simp only [valid_sections, List.mem_cons, List.not_mem_nil, or_false] at hs
  rcases hs with rfl | rfl | rfl | rfl | rfl | rfl
  · rw [fallback_introduction]
    unfold introduction_template
    repeat first
    | exact containsStr_append_right _ (containsStr_self _)
    | apply containsStr_append_left
  · rw [fallback_problem_statement]
    unfold problem_statement_template
    repeat first
    | exact containsStr_append_right _ (containsStr_self _)
    | apply containsStr_append_left
  · rw [fallback_objective]
    unfold objective_template
    repeat first
    | exact containsStr_append_right _ (containsStr_self _)
    | apply containsStr_append_left
  · rw [fallback_methodology]
    unfold methodology_template
    repeat first
    | exact containsStr_append_right _ (containsStr_self _)
    | apply containsStr_append_left
  · rw [fallback_literature_review]
    unfold literature_review_template
    repeat first
    | exact containsStr_append_right _ (containsStr_self _)
    | apply containsStr_append_left
  · rw [fallback_future_scope]
    unfold future_scope_template
    repeat first
    | exact containsStr_append_right _ (containsStr_self _)
    | apply containsStr_append_left

theorem fallback_contains_title (sec domain title : String) (hs : sec ∈ valid_sections) :
    ContainsStr (generate_fallback_content sec domain title) title := by
  simp only [valid_sections, List.mem_cons, List.not_mem_nil, or_false] at hs
  rcases hs with rfl | rfl | rfl | rfl | rfl | rfl
  · rw [fallback_introduction]
    unfold introduction_template
    repeat first
    | exact containsStr_append_right _ (containsStr_self _)
    | apply containsStr_append_left
  · rw [fallback_problem_statement]
    unfold problem_statement_template
    repeat first
    | exact containsStr_append_right _ (containsStr_self _)
    | apply containsStr_append_left
  · rw [fallback_objective]
    unfold objective_template
    repeat first
    | exact containsStr_append_right _ (containsStr_self _)
    | apply containsStr_append_left
  · rw [fallback_methodology]
    unfold methodology_template
    repeat first
    | exact containsStr_append_right _ (containsStr_self _)
    | apply containsStr_append_left
  · rw [fallback_literature_review]
    unfold literature_review_template
    repeat first
    | exact containsStr_append_right _ (containsStr_self _)
    | apply containsStr_append_left
  · rw [fallback_future_scope]
    unfold future_scope_template
    repeat first
    | exact containsStr_append_right _ (containsStr_self _)
    | apply containsStr_append_left

theorem fallback_pos (sec domain title : String) :
    0 < (generate_fallback_content sec domain title).length := by
  by_cases hs : sec ∈ valid_sections
  · exact lt_of_lt_of_le (by omega) (fallback_len_ge sec domain title hs)
  · rw [fallback_unknown sec domain title hs]
    have hc : ContainsStr
        ("Content for " ++ sec ++ " section of " ++ title ++ " project in " ++ domain ++ " domain.")
        " domain." := by
      repeat first
      | exact containsStr_append_right _ (containsStr_self _)
      | apply containsStr_append_left
    exact lt_of_lt_of_le (show 0 < (" domain." : String).length by decide) (length_le_of_contains hc)

/-- Claim C1: for every recognized section, any domain and title strings, and any
external-service response whose first candidate, after stripping surrounding
whitespace, has length at least 50 characters, `generate_content` returns exactly
that stripped text with no further modification. -/
theorem generate_long_response (sec domain title api_key raw : String) (svc : ExternalService)
    (hs : sec ∈ valid_sections)
    (hok : svc api_key (prompt sec domain title) = Except.ok raw)
    (hlen : 50 ≤ (strip raw).length) :
    generate_content sec domain title api_key svc = strip raw := by
  unfold generate_content
  rw [if_neg (not_not_intro hs), hok]
  show (if (strip raw).length < 50 then generate_fallback_content sec domain title else strip raw) = strip raw
  rw [if_neg (by omega)]

theorem generate_long_response_witness :
    "Introduction" ∈ valid_sections ∧
    (fun _ _ => Except.ok ok_response : ExternalService) "key" (prompt "Introduction" "AI" "X") =
      Except.ok ok_response ∧
    50 ≤ (strip ok_response).length ∧
    generate_content "Introduction" "AI" "X" "key" (fun _ _ => Except.ok ok_response) =
      strip ok_response :=
  ⟨by decide, rfl, by decide,
   generate_long_response "Introduction" "AI" "X" "key" ok_response
     (fun _ _ => Except.ok ok_response) (by decide) rfl (by decide)⟩

/-- Claim C2: for every recognized section and any domain and title strings, if the
external call raises (any exception) or every successful first candidate strips to
fewer than 50 characters, then `generate_content` returns exactly
`generate_fallback_content sec domain title`. -/
theorem generate_failure_or_short (sec domain title api_key : String) (svc : ExternalService)
    (hs : sec ∈ valid_sections)
    (hbad : ∀ raw, svc api_key (prompt sec domain title) = Except.ok raw → (strip raw).length < 50) :
    generate_content sec domain title api_key svc = generate_fallback_content sec domain title := by
  unfold generate_content
  rw [if_neg (not_not_intro hs)]
  cases hsvc : svc api_key (prompt sec domain title) with
  | error e => rfl
  | ok raw =>
    show (if (strip raw).length < 50 then generate_fallback_content sec domain title else strip raw) =
      generate_fallback_content sec domain title
    rw [if_pos (hbad raw hsvc)]

theorem generate_failure_or_short_witness :
    "Introduction" ∈ valid_sections ∧
    (fun _ _ => Except.error "network down" : ExternalService) "key"
      (prompt "Introduction" "AI" "Smart Parking") = Except.error "network down" ∧
    generate_content "Introduction" "AI" "Smart Parking" "key"
      (fun _ _ => Except.error "network down") =
      generate_fallback_content "Introduction" "AI" "Smart Parking" :=
  ⟨by decide, rfl,
   generate_failure_or_short "Introduction" "AI" "Smart Parking" "key"
     (fun _ _ => Except.error "network down") (by decide) (fun raw h => nomatch h)⟩

/-- Claim C3: for every section string outside the recognized set and any domain,
title and credential, `generate_content` returns the literal string
`"Invalid section: " ++ sec`, and the result does not depend on the external
service at all (no external call is attempted: the same value is produced under
every possible service behaviour). -/
theorem generate_invalid_section (sec domain title api_key : String) (svc : ExternalService)
    (hs : sec ∉ valid_sections) :
    generate_content sec domain title api_key svc = "Invalid section: " ++ sec ∧
    ∀ svc2 : ExternalService,
      generate_content sec domain title api_key svc = generate_content sec domain title api_key svc2 := by
  constructor
  · unfold generate_content
    rw [if_pos hs]
  · intro svc2
    unfold generate_content
    rw [if_pos hs, if_pos hs]

theorem generate_invalid_section_witness :
    "NotASection" ∉ valid_sections ∧
    generate_content "NotASection" "AI" "X" "key" (fun _ _ => Except.ok ok_response) =
      "Invalid section: NotASection" :=
  ⟨by decide,
   ((generate_invalid_section "NotASection" "AI" "X" "key"
     (fun _ _ => Except.ok ok_response) (by decide)).1).trans rfl⟩

/-- Claim C4: for every input combination (any section, domain, title, credential)
and every external-service behaviour (failure, short response, or valid response),
`generate_content` returns a non-empty string.  Absence of unhandled exceptions is
reflected by totality: `generate_content` is a total Lean function over all inputs
and all service oracles. -/
theorem generate_total_nonempty (sec domain title api_key : String) (svc : ExternalService) :
    generate_content sec domain title api_key svc ≠ "" := by
  unfold generate_content
  by_cases hs : sec ∈ valid_sections
  · rw [if_neg (not_not_intro hs)]
    cases hsvc : svc api_key (prompt sec domain title) with
    | error e => exact ne_empty_of_len_pos (fallback_pos sec domain title)
    | ok raw =>
      show (if (strip raw).length < 50 then generate_fallback_content sec domain title else strip raw) ≠ ""
      by_cases hlen : (strip raw).length < 50
      · rw [if_pos hlen]
        exact ne_empty_of_len_pos (fallback_pos sec domain title)
      · rw [if_neg hlen]
        exact ne_empty_of_len_pos (by omega)
  · rw [if_pos hs]
    apply ne_empty_of_len_pos
    have hc : ContainsStr ("Invalid section: " ++ sec) "Invalid section: " :=
      ⟨"", sec, by rw [String.empty_append]⟩
    exact lt_of_lt_of_le (show 0 < ("Invalid section: " : String).length by decide)
      (length_le_of_contains hc)

/-- Claim C5: for every section in the recognized set and all domain and title
strings, `generate_fallback_content` returns non-empty text containing the literal
domain string and the literal title string verbatim as substrings, and is
deterministic: equal inputs yield equal outputs (the embedded template store is a
pure function, so this holds for any two evaluations). -/
theorem fallback_valid_section_props (sec domain title : String) (hs : sec ∈ valid_sections) :
    generate_fallback_content sec domain title ≠ "" ∧
    ContainsStr (generate_fallback_content sec domain title) domain ∧
    ContainsStr (generate_fallback_content sec domain title) title ∧
    ∀ domain2 title2, domain2 = domain → title2 = title →
      generate_fallback_content sec domain2 title2 = generate_fallback_content sec domain title := by
  refine ⟨ne_empty_of_len_pos (fallback_pos sec domain title),
    fallback_contains_domain sec domain title hs,
    fallback_contains_title sec domain title hs, ?_⟩
  intro domain2 title2 hd ht
  rw [hd, ht]

theorem fallback_valid_section_props_witness :
    "Introduction" ∈ valid_sections ∧
    generate_fallback_content "Introduction" "AI" "Smart Parking" ≠ "" ∧
    ContainsStr (generate_fallback_content "Introduction" "AI" "Smart Parking") "AI" ∧
    ContainsStr (generate_fallback_content "Introduction" "AI" "Smart Parking") "Smart Parking" :=
  ⟨by decide,
   (fallback_valid_section_props "Introduction" "AI" "Smart Parking" (by decide)).1,
   (fallback_valid_section_props "Introduction" "AI" "Smart Parking" (by decide)).2.1,
   (fallback_valid_section_props "Introduction" "AI" "Smart Parking" (by decide)).2.2.1⟩

/-- Claim C6: for every section string outside the recognized set and any domain
and title, `generate_fallback_content` returns the generic placeholder string that
names the section, the title and the domain verbatim, and this placeholder is
non-empty (the lookup never fails). -/
theorem fallback_unknown_section_placeholder (sec domain title : String)
    (hs : sec ∉ valid_sections) :
    generate_fallback_content sec domain title =
      "Content for " ++ sec ++ " section of " ++ title ++ " project in " ++ domain ++ " domain." ∧
    generate_fallback_content sec domain title ≠ "" := by
  refine ⟨fallback_unknown sec domain title hs, ?_⟩
  exact ne_empty_of_len_pos (fallback_pos sec domain title)

theorem fallback_unknown_section_placeholder_witness :
    "NotASection" ∉ valid_sections ∧
    generate_fallback_content "NotASection" "AI" "X" =
      "Content for " ++ "NotASection" ++ " section of " ++ "X" ++ " project in " ++ "AI" ++ " domain." ∧
    generate_fallback_content "NotASection" "AI" "X" ≠ "" :=
  ⟨by decide, (fallback_unknown_section_placeholder "NotASection" "AI" "X" (by decide)).1,
   (fallback_unknown_section_placeholder "NotASection" "AI" "X" (by decide)).2⟩

/-- Claim C7: in "generate all" mode, for any title, domain and credential and any
external-service behaviour (each per-section call may succeed or fall back), the
assembled document contains exactly 7 headings - one level-0 heading with the
project title followed by the six level-1 section headings in the fixed order -
and each section heading is immediately followed by its body paragraph. -/
theorem generate_all_doc_headings (domain title api_key : String) (svc : ExternalService) :
    docHeadings (generate_all_doc domain title api_key svc) =
      [(0, title), (1, "Introduction"), (1, "Problem Statement"), (1, "Objective"),
       (1, "Methodology"), (1, "Literature Review"), (1, "Future Scope")] ∧
    generate_all_doc domain title api_key svc =
      [DocItem.heading 0 title,
       DocItem.heading 1 "Introduction",
       DocItem.para (generate_content "Introduction" domain title api_key svc),
       DocItem.heading 1 "Problem Statement",
       DocItem.para (generate_content "Problem Statement" domain title api_key svc),
       DocItem.heading 1 "Objective",
       DocItem.para (generate_content "Objective" domain title api_key svc),
       DocItem.heading 1 "Methodology",
       DocItem.para (generate_content "Methodology" domain title api_key svc),
       DocItem.heading 1 "Literature Review",
       DocItem.para (generate_content "Literature Review" domain title api_key svc),
       DocItem.heading 1 "Future Scope",
       DocItem.para (generate_content "Future Scope" domain title api_key svc)] :=
  ⟨rfl, rfl⟩

/-- Claim C8 counterexample: the claim asserts that every output artifact,
including the single-section one, contains a level-1 heading for each requested
section.  With section "Introduction", title "X", domain "AI" and a failing
service, the single-section document contains no level-1 "Introduction" heading
at all, so the claim is false as stated. -/
theorem single_section_no_level1_heading :
    DocItem.heading 1 "Introduction" ∉
      single_section_doc "Introduction" "AI" "X" "key" (fun _ _ => Except.error "down") := by
  decide

/-- Claim C8 amended: the generate-all artifact has the title heading plus one
level-1 heading and one paragraph per section (proved with claim C7), while the
single-section artifact contains exactly one heading - a level-0 heading whose
text is the title followed by " - " and the section name - and exactly one
paragraph of body text; the requested section gets no separate level-1 heading. -/
theorem single_section_doc_shape (sec domain title api_key : String) (svc : ExternalService) :
    docHeadings (single_section_doc sec domain title api_key svc) =
      [(0, title ++ " - " ++ sec)] ∧
    docParas (single_section_doc sec domain title api_key svc) =
      [generate_content sec domain title api_key svc] :=
  ⟨rfl, rfl⟩

/-- Claim C9: the generate-all download filename is the title with every space
replaced by an underscore, followed by "_Blackbook.docx", and the single-section
download filename is the sanitized title, an underscore, the section name and
".docx".  `replace_spaces` keeps the length, maps each space to an underscore
and every other character to itself, and leaves no space in the result. -/
theorem download_file_names (title sec : String) :
    blackbook_file_name title = replace_spaces title ++ "_" ++ "Blackbook" ++ ".docx" ∧
    section_file_name title sec = replace_spaces title ++ "_" ++ sec ++ ".docx" ∧
    (replace_spaces title).length = title.length ∧
    (∀ i : Nat, (replace_spaces title).data[i]? =
      (title.data[i]?).map fun c => if c = ' ' then '_' else c) ∧
    ' ' ∉ (replace_spaces title).data := by
  refine ⟨?_, rfl, ?_, ?_, ?_⟩
  · unfold blackbook_file_name
    rw [String.append_assoc, String.append_assoc]
    exact congrArg _ (by rfl)
  · rw [show (replace_spaces title).length =
      (title.data.map fun c => if c = ' ' then '_' else c).length from rfl, List.length_map]
    rfl
  · intro i
    simp [replace_spaces, List.getElem?_map]
  · simp only [replace_spaces, List.mem_map, not_exists]
    intro c h
    obtain ⟨_, hc⟩ := h
    split at hc <;> simp_all

/-- Claim C10 (implicit): for every recognized section and all domain and title
strings, including empty ones, the fallback text has length at least 50, so
fallback content always passes the minimum-length quality gate that
`generate_content` applies to externally sourced text. -/
theorem fallback_meets_min_length (sec domain title : String) (hs : sec ∈ valid_sections) :
    50 ≤ (generate_fallback_content sec domain title).length :=
  fallback_len_ge sec domain title hs

theorem fallback_meets_min_length_witness :
    "Introduction" ∈ valid_sections ∧
    50 ≤ (generate_fallback_content "Introduction" "" "").length :=
  ⟨by decide, fallback_meets_min_length "Introduction" "" "" (by decide)⟩
